import Mathlib

/-!
Shallow embedding of the release-manager backend's deployment/release/rollback
orchestration, audit logging, and metrics aggregation.

Sources embedded:
- `backend/app/services/deployment.py` (`DeploymentService`)
- `backend/app/services/audit.py` (`AuditService`)
- `backend/app/api/routes/analytics.py` (`calculate_metrics_summary`)
- `backend/app/api/routes/deployments.py` (`create_deployment` route)
- `backend/app/models/*.py` (row types)

Modelling conventions:
- The database session is an explicit `DB` record of row lists plus an id
  counter; ORM primary keys (UUIDs) become `Nat` identifiers.
- `datetime.utcnow()` becomes an explicit `now : Int` (seconds) parameter;
  every `utcnow()` call inside one operation yields the same instant, matching
  the sub-second granularity of a single call.
- Python floats in the metrics are modelled as exact rationals `ℚ`.
- Operations that can raise (`ValueError` / HTTP 404) return `Except String`.
  An `Except.error` result models an exception that aborts the enclosing
  transaction, so the caller's observable state stays the input `DB`.
- The audit `metadata` JSON dicts produced by this repository are string-to-
  string maps, so `details` is `Option (List (String × String))`; `log_action`
  stores the value it is given unchanged, mirroring `details=metadata`.
-/

namespace ReleaseManager

/-- Row of `releases` (`app/models/release.py`). -/
structure Release where
  id : Nat
  service_id : Nat
  version : String
  status : String
  created_by : Nat
  created_at : Int
deriving Repr, DecidableEq

/-- Row of `environments` (`app/models/environment.py`), fields the embedded
    code touches. -/
structure Environment where
  id : Nat
  name : String
  environment_type : String
deriving Repr, DecidableEq

/-- Row of `deployments` (`app/models/deployment.py`). `deployed_at` and
    `completed_at` are nullable with no default. -/
structure Deployment where
  id : Nat
  release_id : Nat
  environment_id : Nat
  status : String
  deployed_by : Nat
  deployed_at : Option Int
  completed_at : Option Int
  created_at : Int
deriving Repr, DecidableEq

/-- Row of `pipeline_stages` (`app/models/pipeline_stage.py`). -/
structure PipelineStage where
  id : Nat
  deployment_id : Nat
  name : String
  order : Nat
  status : String
  timeout_seconds : Nat
  started_at : Option Int
  completed_at : Option Int
  output : Option String
deriving Repr, DecidableEq

/-- Row of `rollbacks` (`app/models/rollback.py`). -/
structure Rollback where
  id : Nat
  deployment_id : Nat
  target_release_id : Nat
  reason : String
  status : String
  initiated_by : Nat
  completed_at : Option Int
deriving Repr, DecidableEq

/-- Row of `audit_logs` (`app/models/audit_log.py`). -/
structure AuditLog where
  id : Nat
  user_id : Option Nat
  action : String
  resource_type : String
  resource_id : Nat
  details : Option (List (String × String))
  ip_address : Option String
  user_agent : Option String
  created_at : Int
deriving Repr, DecidableEq

/-- The relational store: one list per table plus a fresh-id counter standing
    in for `uuid4` generation at insert time. -/
structure DB where
  releases : List Release
  environments : List Environment
  deployments : List Deployment
  stages : List PipelineStage
  rollbacks : List Rollback
  audit_logs : List AuditLog
  next_id : Nat
deriving Repr, DecidableEq

/-- `AuditService.log_action` (`audit.py` lines 19-57): build an `AuditLog`
    row with `details=metadata` stored verbatim, add it to the session. -/
def log_action (db : DB) (user_id : Option Nat) (action : String)
    (resource_type : String) (resource_id : Nat)
    (metadata : Option (List (String × String)))
    (ip_address user_agent : Option String) (now : Int) : AuditLog × DB :=
  let audit_log : AuditLog :=
    { id := db.next_id
      user_id := user_id
      action := action
      resource_type := resource_type
      resource_id := resource_id
      details := metadata
      ip_address := ip_address
      user_agent := user_agent
      created_at := now }
  (audit_log,
   { db with audit_logs := db.audit_logs ++ [audit_log], next_id := db.next_id + 1 })

/-- Filter criteria accepted by `AuditService.get_audit_logs`. -/
structure AuditFilters where
  user_id : Option Nat := none
  action : Option String := none
  resource_type : Option String := none
  resource_id : Option Nat := none
  start_date : Option Int := none
  end_date : Option Int := none
deriving Repr, DecidableEq

/-- One row passes the conjunction of the supplied filter conditions
    (`audit.py` lines 88-109). Python applies a condition only when the filter
    value is truthy: ids and datetimes are always truthy, a string is truthy
    iff non-empty, hence the `== ""` escape on the string filters. -/
def matches_filters (f : AuditFilters) (log : AuditLog) : Bool :=
  (match f.user_id with
   | some u => log.user_id == some u
   | none => true) &&
  (match f.action with
   | some a => a == "" || log.action == a
   | none => true) &&
  (match f.resource_type with
   | some t => t == "" || log.resource_type == t
   | none => true) &&
  (match f.resource_id with
   | some i => log.resource_id == i
   | none => true) &&
  (match f.start_date with
   | some s => s ≤ log.created_at
   | none => true) &&
  (match f.end_date with
   | some e => log.created_at ≤ e
   | none => true)

/-- The count statement `get_audit_logs` executes before fetching any rows
    (`audit.py` line 112, and again at lines 122-126):
    `select(select(AuditLog).where(*conditions).correlate(None).scalar_subquery())`.
    The inner SELECT carries all ten columns of `audit_logs`, and the
    configured Postgres store (asyncpg via `config.py`'s `DATABASE_URL`)
    rejects a multi-column scalar subquery at analysis time with
    "subquery must return only one column", independent of the data stored,
    so the awaited execution raises unconditionally (and even a
    single-column coercion would raise whenever two or more rows match). -/
def audit_count_query (_db : DB) (_f : AuditFilters) : Except String Nat :=
  .error "subquery must return only one column"

/-- `AuditService.get_audit_logs` (`audit.py` lines 59-128): build the filter
    conditions (lines 88-109), execute the count statement (lines 112-113),
    then run the row query ordered by `created_at` descending with offset and
    limit (lines 116-119), recount (lines 122-126) and return the page with
    the total. On the configured store the first count execution raises, so
    the call errors before the row query ever runs and no rows are
    returned. -/
def get_audit_logs (db : DB) (f : AuditFilters) (limit : Nat) (offset : Nat) :
    Except String (List AuditLog × Nat) := do
  let filtered := db.audit_logs.filter (matches_filters f)
  let _count1 ← audit_count_query db f
  let ordered := List.insertionSort (fun a b => b.created_at ≤ a.created_at)
    filtered
  let page := (ordered.drop offset).take limit
  let total ← audit_count_query db f
  pure (page, total)

/-- `DeploymentService.create_deployment` (`deployment.py` lines 22-65): build
    a Deployment in status `pending` with `deployed_at=utcnow()`, add it, then
    log a `create_deployment` audit entry. No existence check is performed on
    either id. -/
def create_deployment (db : DB) (release_id environment_id user_id : Nat)
    (now : Int) : Deployment × DB :=
  let deployment : Deployment :=
    { id := db.next_id
      release_id := release_id
      environment_id := environment_id
      status := "pending"
      deployed_by := user_id
      deployed_at := some now
      completed_at := none
      created_at := now }
  let db1 : DB :=
    { db with deployments := db.deployments ++ [deployment], next_id := db.next_id + 1 }
  let logged := log_action db1 (some user_id) "create_deployment" "deployment"
    deployment.id
    (some [("release_id", toString release_id),
           ("environment_id", toString environment_id),
           ("status", deployment.status)])
    none none now
  (deployment, logged.snd)

/-- The `POST /api/deployments` route handler (`routes/deployments.py` lines
    29-82): 404 when the release or the environment does not resolve,
    otherwise insert a Deployment in status `pending`; the route sets neither
    `deployed_at` (left NULL) nor an audit entry. -/
def create_deployment_route (db : DB) (release_id environment_id user_id : Nat)
    (now : Int) : Except String (Deployment × DB) :=
  if (db.releases.find? (fun r => r.id == release_id)).isNone then
    .error "Release not found"
  else if (db.environments.find? (fun e => e.id == environment_id)).isNone then
    .error "Environment not found"
  else
    let new_deployment : Deployment :=
      { id := db.next_id
        release_id := release_id
        environment_id := environment_id
        status := "pending"
        deployed_by := user_id
        deployed_at := none
        completed_at := none
        created_at := now }
    .ok (new_deployment,
      { db with deployments := db.deployments ++ [new_deployment],
                next_id := db.next_id + 1 })

/-- The fixed pipeline stage names seeded by `promote_release`
    (`deployment.py` line 109). -/
def stage_names : List String :=
  ["build", "test", "security_scan", "deploy", "smoke_test"]

/-- The `for idx, stage_name in enumerate(stage_names)` loop of
    `promote_release` (`deployment.py` lines 111-119): one `PipelineStage` per
    name, `order` = loop index, status `pending`, timeout 3600; ids are drawn
    consecutively from the session's id source. -/
def seed_stages (deployment_id base_id : Nat) : List String → Nat → List PipelineStage
  | [], _ => []
  | n :: rest, idx =>
    { id := base_id + idx
      deployment_id := deployment_id
      name := n
      order := idx
      status := "pending"
      timeout_seconds := 3600
      started_at := none
      completed_at := none
      output := none } :: seed_stages deployment_id base_id rest (idx + 1)

/-- `DeploymentService.promote_release` (`deployment.py` lines 67-137):
    resolve the release (ValueError if absent), set its status to `promoted`
    unconditionally, delegate to `create_deployment`, seed the five pipeline
    stages in `pending` with timeout 3600, and log `promote_release`. -/
def promote_release (db : DB) (release_id target_env_id user_id : Nat)
    (now : Int) : Except String (Deployment × DB) :=
  match db.releases.find? (fun r => r.id == release_id) with
  | none => .error ("Release " ++ toString release_id ++ " not found")
  | some release =>
    let db1 : DB :=
      { db with releases := db.releases.map (fun r =>
          if r.id == release_id then { r with status := "promoted" } else r) }
    let created := create_deployment db1 release_id target_env_id user_id now
    let deployment := created.fst
    let db2 := created.snd
    let new_stages : List PipelineStage :=
      seed_stages deployment.id db2.next_id stage_names 0
    let db3 : DB :=
      { db2 with stages := db2.stages ++ new_stages,
                 next_id := db2.next_id + stage_names.length }
    let logged := log_action db3 (some user_id) "promote_release" "release"
      release_id
      (some [("deployment_id", toString deployment.id),
             ("target_environment_id", toString target_env_id),
             ("release_version", release.version)])
      none none now
    .ok (deployment, logged.snd)

/-- `ORDER BY created_at DESC LIMIT 1` over a list of releases: the element
    attaining the maximal `created_at` (rows tied on `created_at` come back in
    store-chosen order; this refinement keeps the later-listed one). -/
def latest_completed : List Release → Option Release
  | [] => none
  | r :: rs =>
    match latest_completed rs with
    | none => some r
    | some b => if b.created_at < r.created_at then some r else some b

/-- `DeploymentService.execute_rollback` (`deployment.py` lines 139-229):
    resolve deployment and release, select the most recent `completed` sibling
    release of the same service as rollback target (ValueError "No previous
    stable release found for rollback" if none), create the Rollback row in
    status `in-progress`, mark deployment and release `rolled_back`, stamp the
    deployment's `completed_at`, and log `execute_rollback`. -/
def execute_rollback (db : DB) (deployment_id user_id : Nat) (reason : String)
    (now : Int) : Except String (Rollback × DB) :=
  match db.deployments.find? (fun d => d.id == deployment_id) with
  | none => .error ("Deployment " ++ toString deployment_id ++ " not found")
  | some deployment =>
    match db.releases.find? (fun r => r.id == deployment.release_id) with
    | none => .error ("Release " ++ toString deployment.release_id ++ " not found")
    | some release =>
      let candidates := db.releases.filter (fun r =>
        r.service_id == release.service_id && r.id != release.id &&
          r.status == "completed")
      match latest_completed candidates with
      | none => .error "No previous stable release found for rollback"
      | some previous_release =>
        let rollback : Rollback :=
          { id := db.next_id
            deployment_id := deployment_id
            target_release_id := previous_release.id
            reason := reason
            status := "in-progress"
            initiated_by := user_id
            completed_at := none }
        let db1 : DB :=
          { db with rollbacks := db.rollbacks ++ [rollback],
                    next_id := db.next_id + 1 }
        let db2 : DB :=
          { db1 with deployments := db1.deployments.map (fun d =>
              if d.id == deployment_id then
                { d with status := "rolled_back", completed_at := some now }
              else d) }
        let db3 : DB :=
          { db2 with releases := db2.releases.map (fun r =>
              if r.id == release.id then { r with status := "rolled_back" }
              else r) }
        let logged := log_action db3 (some user_id) "execute_rollback"
          "deployment" deployment_id
          (some [("rollback_id", toString rollback.id),
                 ("from_version", release.version),
                 ("to_version", previous_release.version),
                 ("reason", reason)])
          none none now
        .ok (rollback, logged.snd)

/-- The transactional wrapper around `execute_rollback`: a raised exception
    rolls the in-flight transaction back (§4.1/§7 of the design: "All writes
    are part of one transaction"), so the persisted state after a failed call
    is the input state. -/
def execute_rollback_apply (db : DB) (deployment_id user_id : Nat)
    (reason : String) (now : Int) : DB :=
  match execute_rollback db deployment_id user_id reason now with
  | .ok p => p.snd
  | .error _ => db

/-- The in-place mutation body of `update_pipeline_stage` (`deployment.py`
    lines 318-327) applied to the resolved stage: overwrite the status,
    replace `output` only when the argument is truthy in Python's sense
    (non-None and non-empty), then apply the set-once timestamp branches for
    `in-progress` / `completed` / `failed`. -/
def stage_after (stage0 : PipelineStage) (status : String)
    (output : Option String) (now : Int) : PipelineStage :=
  let stage1 := { stage0 with status := status }
  let stage2 :=
    match output with
    | some o => if o == "" then stage1 else { stage1 with output := some o }
    | none => stage1
  if status == "in-progress" && stage2.started_at == none then
    { stage2 with started_at := some now }
  else if status == "completed" && stage2.completed_at == none then
    { stage2 with completed_at := some now }
  else if status == "failed" && stage2.completed_at == none then
    { stage2 with completed_at := some now }
  else stage2

/-- `DeploymentService.update_pipeline_stage` (`deployment.py` lines 291-330):
    resolve the stage (ValueError if absent), apply `stage_after` to it in
    place, and return the updated row. -/
def update_pipeline_stage (db : DB) (stage_id : Nat) (status : String)
    (output : Option String) (now : Int) : Except String (PipelineStage × DB) :=
  match db.stages.find? (fun s => s.id == stage_id) with
  | none => .error ("Pipeline stage " ++ toString stage_id ++ " not found")
  | some stage0 =>
    .ok (stage_after stage0 status output now,
      { db with stages := db.stages.map (fun s =>
          if s.id == stage_id then stage_after stage0 status output now else s) })

/-- Result record of `calculate_metrics_summary` (`schemas` `MetricsSummary`),
    float fields as exact rationals. -/
structure MetricsSummary where
  mean_time_to_recovery : ℚ
  deployment_frequency : ℚ
  change_failure_rate : ℚ
  lead_time : ℚ
  total_deployments : Nat
  failed_deployments : Nat
  successful_deployments : Nat
  period_start : Int
  period_end : Int
deriving Repr, DecidableEq

/-- Seconds in a day, for `timedelta(days=days)`. -/
def seconds_per_day : Int := 86400

/-- The deployments whose `created_at` lies in `[now - days, now]`
    (`analytics.py` lines 30-36). -/
def window_deployments (db : DB) (now : Int) (days : Nat) : List Deployment :=
  db.deployments.filter (fun d =>
    now - (days : Int) * seconds_per_day ≤ d.created_at && d.created_at ≤ now)

/-- The `total_time` accumulation of `analytics.py` lines 58-62: add
    `completed_at - deployed_at` (seconds) for each deployment having both
    timestamps, skip the rest. -/
def recovery_total_time (l : List Deployment) : Int :=
  l.foldl (fun acc d =>
    match d.deployed_at, d.completed_at with
    | some dep, some comp => acc + (comp - dep)
    | _, _ => acc) 0

/-- The `created_to_deployed`/`count` accumulation of `analytics.py` lines
    65-71: for each deployment with `deployed_at` set, add
    `deployed_at - created_at` (seconds) and bump the counter. -/
def lead_total_and_count (l : List Deployment) : Int × Nat :=
  l.foldl (fun acc d =>
    match d.deployed_at with
    | some dep => (acc.fst + (dep - d.created_at), acc.snd + 1)
    | none => acc) (0, 0)

/-- `calculate_metrics_summary` (`analytics.py` lines 22-84). Note the MTTR
    denominator is `len(deployments)` — every deployment in the window — while
    only deployments with both timestamps contribute to the numerator. -/
def calculate_metrics_summary (db : DB) (now : Int) (days : Nat) :
    MetricsSummary :=
  let start_date := now - (days : Int) * seconds_per_day
  let end_date := now
  let deployments := window_deployments db now days
  let total_deployments := deployments.length
  let failed_deployments := deployments.countP (fun d => d.status == "failed")
  let successful_deployments := total_deployments - failed_deployments
  let change_failure_rate : ℚ :=
    if 0 < total_deployments then
      (failed_deployments : ℚ) / (total_deployments : ℚ) * 100
    else 0
  let deployment_frequency : ℚ :=
    if 0 < days then (total_deployments : ℚ) / (days : ℚ) else 0
  let mttr : ℚ :=
    if deployments.isEmpty then 0
    else ((recovery_total_time deployments : ℚ) / (total_deployments : ℚ)) / 60
  let lead_time : ℚ :=
    if deployments.isEmpty then 0
    else
      let lc := lead_total_and_count deployments
      if 0 < lc.snd then ((lc.fst : ℚ) / (lc.snd : ℚ)) / 3600 else 0
  { mean_time_to_recovery := mttr
    deployment_frequency := deployment_frequency
    change_failure_rate := change_failure_rate
    lead_time := lead_time
    total_deployments := total_deployments
    failed_deployments := failed_deployments
    successful_deployments := successful_deployments
    period_start := start_date
    period_end := end_date }

def c3_db : DB :=
  { releases := [{ id := 1, service_id := 7, version := "1.0.0",
                   status := "draft", created_by := 3, created_at := 5 }]
    environments := [{ id := 2, name := "prod", environment_type := "production" }]
    deployments := []
    stages := []
    rollbacks := []
    audit_logs := []
    next_id := 10 }

def c3_rel : Release :=
  { id := 1, service_id := 7, version := "1.0.0", status := "draft",
    created_by := 3, created_at := 5 }

def c7_db : DB :=
  { releases := [{ id := 1, service_id := 7, version := "2.0.0",
                   status := "failed", created_by := 3, created_at := 5 }]
    environments := []
    deployments := []
    stages := []
    rollbacks := []
    audit_logs := []
    next_id := 10 }

def c7_rel : Release :=
  { id := 1, service_id := 7, version := "2.0.0", status := "failed",
    created_by := 3, created_at := 5 }

def c6_st : PipelineStage :=
  { id := 5, deployment_id := 9, name := "build", order := 0,
    status := "pending", timeout_seconds := 3600, started_at := none,
    completed_at := none, output := none }

def c6_db : DB :=
  { releases := []
    environments := []
    deployments := []
    stages := [c6_st]
    rollbacks := []
    audit_logs := []
    next_id := 20 }

def c10_st : PipelineStage :=
  { id := 6, deployment_id := 9, name := "test", order := 1,
    status := "pending", timeout_seconds := 3600, started_at := none,
    completed_at := none, output := some "previous logs" }

def c10_db : DB :=
  { releases := []
    environments := []
    deployments := []
    stages := [c10_st]
    rollbacks := []
    audit_logs := []
    next_id := 20 }

/-- Whether an `Except` result is a success. -/
def except_is_ok {α : Type} (e : Except String α) : Bool :=
  match e with
  | .ok _ => true
  | .error _ => false

def c1_db : DB :=
  { releases :=
      [{ id := 1, service_id := 7, version := "1.0.0", status := "completed",
         created_by := 3, created_at := 100 },
       { id := 2, service_id := 7, version := "1.1.0", status := "completed",
         created_by := 3, created_at := 500 },
       { id := 3, service_id := 7, version := "1.2.0", status := "draft",
         created_by := 3, created_at := 900 }]
    environments := []
    deployments :=
      [{ id := 10, release_id := 3, environment_id := 4, status := "failed",
         deployed_by := 3, deployed_at := some 950, completed_at := none,
         created_at := 950 }]
    stages := []
    rollbacks := []
    audit_logs := []
    next_id := 20 }

/-- Projection of a rollback result onto the chosen target release id. -/
def rollback_target (e : Except String (Rollback × DB)) : Option Nat :=
  match e with
  | .ok p => some p.fst.target_release_id
  | .error _ => none

def c4_dep : Deployment :=
  { id := 10, release_id := 1, environment_id := 4, status := "failed",
    deployed_by := 3, deployed_at := some 950, completed_at := none,
    created_at := 950 }

def c4_rel : Release :=
  { id := 1, service_id := 7, version := "1.0.0", status := "draft",
    created_by := 3, created_at := 100 }

def c4_db : DB :=
  { releases :=
      [c4_rel,
       { id := 2, service_id := 7, version := "0.9.0", status := "draft",
         created_by := 3, created_at := 50 }]
    environments := []
    deployments := [c4_dep]
    stages := []
    rollbacks := []
    audit_logs := []
    next_id := 20 }

def mk_dep (i : Nat) (st : String) : Deployment :=
  { id := i, release_id := 1, environment_id := 2, status := st,
    deployed_by := 3, deployed_at := none, completed_at := none,
    created_at := (i : Int) }

def c5_db : DB :=
  { releases := []
    environments := []
    deployments :=
      [mk_dep 1 "failed", mk_dep 2 "failed", mk_dep 3 "failed",
       mk_dep 4 "completed", mk_dep 5 "completed", mk_dep 6 "completed",
       mk_dep 7 "completed", mk_dep 8 "pending", mk_dep 9 "pending",
       mk_dep 10 "in_progress"]
    stages := []
    rollbacks := []
    audit_logs := []
    next_id := 50 }

/-- The windowed deployments that have both `deployed_at` and `completed_at`
    set. -/
def qualifying (l : List Deployment) : List Deployment :=
  l.filter (fun d => d.deployed_at.isSome && d.completed_at.isSome)

/-- Total duration in seconds over the qualifying deployments. -/
def qual_total (l : List Deployment) : Int :=
  ((qualifying l).map
    (fun d => d.completed_at.getD 0 - d.deployed_at.getD 0)).sum

def c2_db : DB :=
  { releases := []
    environments := []
    deployments :=
      [{ id := 1, release_id := 1, environment_id := 2, status := "completed",
         deployed_by := 3, deployed_at := some 10, completed_at := some 130,
         created_at := 10 },
       { id := 2, release_id := 1, environment_id := 2, status := "pending",
         deployed_by := 3, deployed_at := none, completed_at := none,
         created_at := 20 }]
    stages := []
    rollbacks := []
    audit_logs := []
    next_id := 50 }

/-- Modelled from the claim's wording, NOT from the source: the average of
    (completed_at − deployed_at) in minutes over exactly those deployments in
    the window that have both timestamps set, 0 when none qualify. Used only
    to compare the claim against the code's behaviour. -/
def mttr_claimed (db : DB) (now : Int) (days : Nat) : ℚ :=
  if 0 < (qualifying (window_deployments db now days)).length then
    (qual_total (window_deployments db now days) : ℚ) /
      ((qualifying (window_deployments db now days)).length : ℚ) / 60
  else 0

def c2w_db : DB :=
  { releases := []
    environments := []
    deployments :=
      [{ id := 1, release_id := 1, environment_id := 2, status := "pending",
         deployed_by := 3, deployed_at := none, completed_at := none,
         created_at := 20 }]
    stages := []
    rollbacks := []
    audit_logs := []
    next_id := 50 }

def c8_db : DB :=
  { releases := []
    environments := []
    deployments := []
    stages := []
    rollbacks := []
    audit_logs := []
    next_id := 0 }

def c8w_db : DB :=
  { releases := [{ id := 1, service_id := 7, version := "1.0.0",
                   status := "draft", created_by := 3, created_at := 5 }]
    environments := [{ id := 2, name := "prod",
                       environment_type := "production" }]
    deployments := []
    stages := []
    rollbacks := []
    audit_logs := []
    next_id := 30 }

def c9_db : DB :=
  { releases := []
    environments := []
    deployments := []
    stages := []
    rollbacks := []
    audit_logs := []
    next_id := 0 }

/-! ### Helper lemmas -/

theorem stage_after_id (st : PipelineStage) (status : String)
    (output : Option String) (now : Int) :
    (stage_after st status output now).id = st.id := by
  cases output <;> simp only [stage_after] <;> split_ifs <;> rfl

theorem stage_after_status (st : PipelineStage) (status : String)
    (output : Option String) (now : Int) :
    (stage_after st status output now).status = status := by
  cases output <;> simp only [stage_after] <;> split_ifs <;> rfl

theorem stage_after_deployment_id (st : PipelineStage) (status : String)
    (output : Option String) (now : Int) :
    (stage_after st status output now).deployment_id = st.deployment_id := by
  cases output <;> simp only [stage_after] <;> split_ifs <;> rfl

theorem stage_after_output (st : PipelineStage) (status : String)
    (output : Option String) (now : Int) :
    (stage_after st status output now).output =
      (match output with
       | some o => if o = "" then st.output else some o
       | none => st.output) := by
  cases output <;> simp only [stage_after] <;> split_ifs <;>
    simp_all [beq_iff_eq]

theorem stage_after_started_at (st : PipelineStage) (status : String)
    (output : Option String) (now : Int) :
    (stage_after st status output now).started_at =
      (if status = "in-progress" ∧ st.started_at = none then some now
       else st.started_at) := by
  cases output <;> simp only [stage_after] <;> split_ifs <;>
    simp_all [Bool.and_eq_true, beq_iff_eq]

theorem stage_after_completed_at (st : PipelineStage) (status : String)
    (output : Option String) (now : Int) :
    (stage_after st status output now).completed_at =
      (if (status = "completed" ∨ status = "failed") ∧ st.completed_at = none
       then some now else st.completed_at) := by
  cases output <;> simp only [stage_after] <;> split_ifs <;>
    simp_all [Bool.and_eq_true, beq_iff_eq]

theorem promote_release_ok (db : DB) (release_id env_id uid : Nat) (now : Int)
    (rel : Release)
    (hrel : db.releases.find? (fun r => r.id == release_id) = some rel) :
    ∃ dep db', promote_release db release_id env_id uid now = Except.ok (dep, db') ∧
      dep.id = db.next_id ∧ dep.status = "pending" ∧ dep.deployed_at = some now ∧
      db'.releases = db.releases.map (fun r =>
        if r.id == release_id then { r with status := "promoted" } else r) ∧
      ∃ base, db'.stages = db.stages ++ seed_stages dep.id base stage_names 0 := by
  unfold promote_release
  rw [hrel]
  exact ⟨_, _, rfl, rfl, rfl, rfl, rfl, _, rfl⟩

/-- C3: a successful `promote_release` call creates exactly 5 pipeline stage
    rows, appended after the pre-existing ones, named
    build/test/security_scan/deploy/smoke_test with `order` 0..4, each in
    status `pending` with timeout 3600, and all attached to the new
    deployment. -/
theorem c3_promote_release_seeds_five_stages
    (db : DB) (release_id env_id uid : Nat) (now : Int) (rel : Release)
    (hrel : db.releases.find? (fun r => r.id == release_id) = some rel) :
    ∃ dep db',
      promote_release db release_id env_id uid now = Except.ok (dep, db') ∧
      db'.stages.length = db.stages.length + 5 ∧
      db'.stages.take db.stages.length = db.stages ∧
      (db'.stages.drop db.stages.length).map
        (fun s => (s.name, s.order, s.status, s.timeout_seconds)) =
        [("build", 0, "pending", 3600), ("test", 1, "pending", 3600),
         ("security_scan", 2, "pending", 3600), ("deploy", 3, "pending", 3600),
         ("smoke_test", 4, "pending", 3600)] ∧
      ∀ s ∈ db'.stages.drop db.stages.length, s.deployment_id = dep.id := by
  obtain ⟨dep, db', heq, hid, hst, hda, hrels, base, hstages⟩ :=
    promote_release_ok db release_id env_id uid now rel hrel
  refine ⟨dep, db', heq, ?_, ?_, ?_, ?_⟩
  · rw [hstages, List.length_append]
    simp [seed_stages, stage_names]
  · rw [hstages, List.take_left]
  · rw [hstages, List.drop_left]
    simp [seed_stages, stage_names]
  · rw [hstages, List.drop_left]
    intro s hs
    simp only [seed_stages, stage_names, List.mem_cons, List.not_mem_nil,
      or_false] at hs
    rcases hs with rfl | rfl | rfl | rfl | rfl <;> rfl

/-- Witness for C3 at a concrete database. -/
theorem c3_promote_release_seeds_five_stages_witness :
    ∃ dep db',
      promote_release c3_db 1 2 3 50 = Except.ok (dep, db') ∧
      db'.stages.length = c3_db.stages.length + 5 ∧
      db'.stages.take c3_db.stages.length = c3_db.stages ∧
      (db'.stages.drop c3_db.stages.length).map
        (fun s => (s.name, s.order, s.status, s.timeout_seconds)) =
        [("build", 0, "pending", 3600), ("test", 1, "pending", 3600),
         ("security_scan", 2, "pending", 3600), ("deploy", 3, "pending", 3600),
         ("smoke_test", 4, "pending", 3600)] ∧
      ∀ s ∈ db'.stages.drop c3_db.stages.length, s.deployment_id = dep.id :=
  c3_promote_release_seeds_five_stages c3_db 1 2 3 50 c3_rel (by rfl)

/-- C7: `promote_release` overwrites the release's status with `promoted`
    regardless of the prior status (no guard), and fails with the NotFound
    error when the release id does not resolve. -/
theorem c7_promote_release_unconditional_overwrite
    (db : DB) (release_id env_id uid : Nat) (now : Int) :
    (∀ rel, db.releases.find? (fun r => r.id == release_id) = some rel →
      ∃ dep db',
        promote_release db release_id env_id uid now = Except.ok (dep, db') ∧
        (∀ r ∈ db'.releases, r.id = release_id → r.status = "promoted") ∧
        db'.releases.length = db.releases.length) ∧
    (db.releases.find? (fun r => r.id == release_id) = none →
      promote_release db release_id env_id uid now =
        Except.error ("Release " ++ toString release_id ++ " not found")) := by
  constructor
  · intro rel hrel
    obtain ⟨dep, db', heq, hid, hst, hda, hrels, base, hstages⟩ :=
      promote_release_ok db release_id env_id uid now rel hrel
    refine ⟨dep, db', heq, ?_, ?_⟩
    · rw [hrels]
      intro r hr hrid
      rcases List.mem_map.mp hr with ⟨a, ha, hfa⟩
      by_cases hcase : a.id = release_id
      · have hb : (a.id == release_id) = true := beq_iff_eq.mpr hcase
        rw [← hfa]
        simp [hb]
      · have hb : (a.id == release_id) = false := beq_eq_false_iff_ne.mpr hcase
        rw [← hfa] at hrid
        simp only [hb, Bool.false_eq_true, if_false] at hrid
        exact absurd hrid hcase
    · rw [hrels, List.length_map]
  · intro hnone
    unfold promote_release
    rw [hnone]

/-- Witness for C7: a release whose prior status is `failed` is promoted
    anyway, and a missing release id yields the NotFound error. -/
theorem c7_promote_release_unconditional_overwrite_witness :
    (∃ dep db',
      promote_release c7_db 1 2 3 50 = Except.ok (dep, db') ∧
      (∀ r ∈ db'.releases, r.id = 1 → r.status = "promoted") ∧
      db'.releases.length = c7_db.releases.length) ∧
    promote_release c7_db 9 2 3 50 =
      Except.error ("Release " ++ toString 9 ++ " not found") :=
  ⟨(c7_promote_release_unconditional_overwrite c7_db 1 2 3 50).1 c7_rel (by rfl),
   (c7_promote_release_unconditional_overwrite c7_db 9 2 3 50).2 (by rfl)⟩

theorem update_pipeline_stage_ok (db : DB) (stage_id : Nat) (status : String)
    (output : Option String) (now : Int) (st : PipelineStage)
    (hst : db.stages.find? (fun s => s.id == stage_id) = some st) :
    update_pipeline_stage db stage_id status output now =
      Except.ok (stage_after st status output now,
        { db with stages := db.stages.map (fun s =>
            if s.id == stage_id then stage_after st status output now else s) }) := by
  unfold update_pipeline_stage
  rw [hst]

theorem find?_map_replace (l : List PipelineStage) (sid : Nat)
    (st new : PipelineStage)
    (h : l.find? (fun s => s.id == sid) = some st) (hid : new.id = st.id) :
    (l.map (fun s => if s.id == sid then new else s)).find?
      (fun s => s.id == sid) = some new := by
  induction l with
  | nil => simp at h
  | cons a l ih =>
    rw [List.find?_cons] at h
    by_cases ha : (a.id == sid) = true
    · simp only [ha] at h
      injection h with h
      subst h
      have hb : (new.id == sid) = true := by rw [hid]; exact ha
      simp only [List.map_cons, ha, if_true, List.find?_cons, hb]
    · have ha' : (a.id == sid) = false := by simpa using ha
      simp only [ha'] at h
      simp only [List.map_cons, ha', Bool.false_eq_true, if_false,
        List.find?_cons]
      exact ih h

/-- C6: `update_pipeline_stage` sets `started_at` only on entering
    `in-progress` and only when it is still unset, and sets `completed_at`
    only on entering `completed` or `failed` and only when it is still unset;
    in particular two consecutive `completed` updates keep the first
    `completed_at`. -/
theorem c6_update_pipeline_stage_timestamps_set_once
    (db : DB) (stage_id : Nat) (status : String) (output : Option String)
    (now now2 : Int) (st : PipelineStage)
    (hst : db.stages.find? (fun s => s.id == stage_id) = some st) :
    (∃ st' db',
      update_pipeline_stage db stage_id status output now = Except.ok (st', db') ∧
      st'.started_at =
        (if status = "in-progress" ∧ st.started_at = none then some now
         else st.started_at) ∧
      st'.completed_at =
        (if (status = "completed" ∨ status = "failed") ∧ st.completed_at = none
         then some now else st.completed_at)) ∧
    (∀ st1 db1 st2 db2,
      update_pipeline_stage db stage_id "completed" output now =
        Except.ok (st1, db1) →
      update_pipeline_stage db1 stage_id "completed" output now2 =
        Except.ok (st2, db2) →
      st2.completed_at = st1.completed_at ∧ st1.completed_at ≠ none) := by
  constructor
  · exact ⟨_, _, update_pipeline_stage_ok db stage_id status output now st hst,
      stage_after_started_at st status output now,
      stage_after_completed_at st status output now⟩
  · intro st1 db1 st2 db2 h1 h2
    rw [update_pipeline_stage_ok db stage_id "completed" output now st hst] at h1
    rw [Except.ok.injEq, Prod.mk.injEq] at h1
    obtain ⟨hst1, hdb1⟩ := h1
    have hfind : db1.stages.find? (fun s => s.id == stage_id) =
        some (stage_after st "completed" output now) := by
      rw [← hdb1]
      exact find?_map_replace db.stages stage_id st _ hst
        (stage_after_id st "completed" output now)
    rw [update_pipeline_stage_ok db1 stage_id "completed" output now2 _ hfind] at h2
    rw [Except.ok.injEq, Prod.mk.injEq] at h2
    obtain ⟨hst2, _⟩ := h2
    have hinner := stage_after_completed_at st "completed" output now
    rw [hst1] at hinner
    have hne : st1.completed_at ≠ none := by
      rw [hinner]
      split_ifs with hcond
      · simp
      · intro hn
        exact hcond ⟨Or.inl rfl, hn⟩
    refine ⟨?_, hne⟩
    have houter := stage_after_completed_at (stage_after st "completed" output now)
      "completed" output now2
    rw [hst2] at houter
    rw [houter, if_neg]
    · rw [hst1]
    · intro hc
      have hcn := hc.2
      rw [hst1] at hcn
      exact hne hcn

/-- Witness for C6 at a concrete stage in status `pending` with both
    timestamps unset. -/
theorem c6_update_pipeline_stage_timestamps_set_once_witness :
    (∃ st' db',
      update_pipeline_stage c6_db 5 "completed" none 100 = Except.ok (st', db') ∧
      st'.started_at =
        (if ("completed" : String) = "in-progress" ∧ c6_st.started_at = none
         then some 100 else c6_st.started_at) ∧
      st'.completed_at =
        (if (("completed" : String) = "completed" ∨ ("completed" : String) = "failed") ∧
            c6_st.completed_at = none
         then some 100 else c6_st.completed_at)) ∧
    (∀ st1 db1 st2 db2,
      update_pipeline_stage c6_db 5 "completed" none 100 =
        Except.ok (st1, db1) →
      update_pipeline_stage db1 5 "completed" none 200 =
        Except.ok (st2, db2) →
      st2.completed_at = st1.completed_at ∧ st1.completed_at ≠ none) :=
  c6_update_pipeline_stage_timestamps_set_once c6_db 5 "completed" none 100 200
    c6_st (by rfl)

/-- C10: `update_pipeline_stage` leaves the stored `output` unchanged when the
    argument is absent (`None`) or the empty string, while still applying the
    status overwrite; a non-empty output replaces the stored value. -/
theorem c10_update_pipeline_stage_output_guard
    (db : DB) (stage_id : Nat) (status : String) (output : Option String)
    (now : Int) (st : PipelineStage)
    (hst : db.stages.find? (fun s => s.id == stage_id) = some st) :
    ∃ st' db',
      update_pipeline_stage db stage_id status output now = Except.ok (st', db') ∧
      st'.status = status ∧
      ((output = none ∨ output = some "") → st'.output = st.output) ∧
      (∀ o, output = some o → o ≠ "" → st'.output = some o) := by
  refine ⟨_, _, update_pipeline_stage_ok db stage_id status output now st hst,
    stage_after_status st status output now, ?_, ?_⟩
  · intro h
    rw [stage_after_output]
    rcases h with rfl | rfl
    · rfl
    · simp
  · intro o ho hne
    subst ho
    rw [stage_after_output]
    simp [hne]

/-- Witness for C10 at a concrete stage holding a previously stored output. -/
theorem c10_update_pipeline_stage_output_guard_witness :
    ∃ st' db',
      update_pipeline_stage c10_db 6 "completed" none 100 = Except.ok (st', db') ∧
      st'.status = "completed" ∧
      (((none : Option String) = none ∨ (none : Option String) = some "") →
        st'.output = c10_st.output) ∧
      (∀ o, (none : Option String) = some o → o ≠ "" → st'.output = some o) :=
  c10_update_pipeline_stage_output_guard c10_db 6 "completed" none 100 c10_st
    (by rfl)

theorem latest_completed_eq_none (l : List Release) :
    latest_completed l = none ↔ l = [] := by
  cases l with
  | nil => simp [latest_completed]
  | cons a rs =>
    simp only [latest_completed]
    cases hlc : latest_completed rs with
    | none => simp
    | some c =>
      dsimp only
      split_ifs <;> simp

theorem latest_completed_mem (l : List Release) (b : Release)
    (h : latest_completed l = some b) : b ∈ l := by
  induction l generalizing b with
  | nil => simp [latest_completed] at h
  | cons a rs ih =>
    simp only [latest_completed] at h
    cases hlc : latest_completed rs with
    | none =>
      rw [hlc] at h
      dsimp only at h
      injection h with h
      subst h
      exact List.mem_cons_self a rs
    | some c =>
      rw [hlc] at h
      dsimp only at h
      split_ifs at h
      · injection h with h
        subst h
        exact List.mem_cons_self a rs
      · injection h with h
        subst h
        exact List.mem_cons_of_mem a (ih c hlc)

theorem latest_completed_ge (l : List Release) (b : Release)
    (h : latest_completed l = some b) :
    ∀ r ∈ l, r.created_at ≤ b.created_at := by
  induction l generalizing b with
  | nil => intro r hr; simp at hr
  | cons a rs ih =>
    intro r hr
    simp only [latest_completed] at h
    cases hlc : latest_completed rs with
    | none =>
      rw [hlc] at h
      dsimp only at h
      injection h with h
      subst h
      have hrs : rs = [] := (latest_completed_eq_none rs).mp hlc
      subst hrs
      rcases List.mem_singleton.mp hr with rfl
      exact le_refl _
    | some c =>
      rw [hlc] at h
      dsimp only at h
      rcases List.mem_cons.mp hr with rfl | hr'
      · split_ifs at h with hlt
        · injection h with h
          subst h
          exact le_refl _
        · injection h with h
          subst h
          exact le_of_not_lt hlt
      · split_ifs at h with hlt
        · injection h with h
          subst h
          exact le_of_lt (lt_of_le_of_lt (ih c hlc r hr') hlt)
        · injection h with h
          subst h
          exact ih c hlc r hr'

theorem execute_rollback_ok_shape (db : DB) (did uid : Nat) (reason : String)
    (now : Int) (dep : Deployment) (rel : Release) (prev : Release)
    (hdep : db.deployments.find? (fun d => d.id == did) = some dep)
    (hrel : db.releases.find? (fun r => r.id == dep.release_id) = some rel)
    (hprev : latest_completed (db.releases.filter (fun r =>
        r.service_id == rel.service_id && r.id != rel.id &&
          r.status == "completed")) = some prev) :
    ∃ db', execute_rollback db did uid reason now =
      Except.ok ({ id := db.next_id, deployment_id := did,
                   target_release_id := prev.id, reason := reason,
                   status := "in-progress", initiated_by := uid,
                   completed_at := none }, db') := by
  unfold execute_rollback
  rw [hdep]
  dsimp only
  rw [hrel]
  dsimp only
  rw [hprev]
  exact ⟨_, rfl⟩

/-- C1: whenever `execute_rollback` succeeds, the chosen rollback target is a
    release of the same service as the deployment's release, distinct from it,
    in status `completed`, and no other such release has a more recent
    creation timestamp. -/
theorem c1_rollback_target_most_recent_completed
    (db : DB) (did uid : Nat) (reason : String) (now : Int)
    (hok : except_is_ok (execute_rollback db did uid reason now) = true) :
    ∃ rb db' dep rel target,
      execute_rollback db did uid reason now = Except.ok (rb, db') ∧
      db.deployments.find? (fun d => d.id == did) = some dep ∧
      db.releases.find? (fun r => r.id == dep.release_id) = some rel ∧
      target ∈ db.releases ∧
      rb.target_release_id = target.id ∧
      target.service_id = rel.service_id ∧
      target.id ≠ rel.id ∧
      target.status = "completed" ∧
      ∀ r ∈ db.releases, r.service_id = rel.service_id → r.id ≠ rel.id →
        r.status = "completed" → r.created_at ≤ target.created_at := by
  cases hdep : db.deployments.find? (fun d => d.id == did) with
  | none =>
    simp only [execute_rollback, hdep, except_is_ok] at hok
    exact absurd hok (by decide)
  | some dep =>
    cases hrel : db.releases.find? (fun r => r.id == dep.release_id) with
    | none =>
      simp only [execute_rollback, hdep, hrel, except_is_ok] at hok
      exact absurd hok (by decide)
    | some rel =>
      cases hprev : latest_completed (db.releases.filter (fun r =>
          r.service_id == rel.service_id && r.id != rel.id &&
            r.status == "completed")) with
      | none =>
        simp only [execute_rollback, hdep, hrel, hprev, except_is_ok] at hok
        exact absurd hok (by decide)
      | some prev =>
        obtain ⟨db', heq⟩ :=
          execute_rollback_ok_shape db did uid reason now dep rel prev hdep
            hrel hprev
        have hmemf := latest_completed_mem _ _ hprev
        have hge := latest_completed_ge _ _ hprev
        rw [List.mem_filter] at hmemf
        obtain ⟨hmem, hcond⟩ := hmemf
        simp only [Bool.and_eq_true, beq_iff_eq, bne_iff_ne] at hcond
        refine ⟨_, db', dep, rel, prev, heq, rfl, hrel, hmem, rfl,
          hcond.1.1, hcond.1.2, hcond.2, ?_⟩
        intro r hr h1 h2 h3
        refine hge r (List.mem_filter.mpr ⟨hr, ?_⟩)
        simp [Bool.and_eq_true, beq_iff_eq, bne_iff_ne, h1, h2, h3]

/-- Witness for C1: in the A/B/C scenario (A completed at day −10, B completed
    at day −5, C draft), rolling back a deployment of C picks B (id 2). -/
theorem c1_rollback_target_most_recent_completed_witness :
    (∃ rb db' dep rel target,
      execute_rollback c1_db 10 5 "bad deploy" 1000 = Except.ok (rb, db') ∧
      c1_db.deployments.find? (fun d => d.id == 10) = some dep ∧
      c1_db.releases.find? (fun r => r.id == dep.release_id) = some rel ∧
      target ∈ c1_db.releases ∧
      rb.target_release_id = target.id ∧
      target.service_id = rel.service_id ∧
      target.id ≠ rel.id ∧
      target.status = "completed" ∧
      ∀ r ∈ c1_db.releases, r.service_id = rel.service_id → r.id ≠ rel.id →
        r.status = "completed" → r.created_at ≤ target.created_at) ∧
    rollback_target (execute_rollback c1_db 10 5 "bad deploy" 1000) = some 2 :=
  ⟨c1_rollback_target_most_recent_completed c1_db 10 5 "bad deploy" 1000
      (by decide),
   by decide⟩

/-- C4: when no other release of the same service has status `completed`,
    `execute_rollback` fails with the "no previous stable release" error and
    the transactional state is unchanged (no rollback row, no status or
    timestamp mutation). -/
theorem c4_rollback_without_completed_sibling_fails
    (db : DB) (did uid : Nat) (reason : String) (now : Int)
    (dep : Deployment) (rel : Release)
    (hdep : db.deployments.find? (fun d => d.id == did) = some dep)
    (hrel : db.releases.find? (fun r => r.id == dep.release_id) = some rel)
    (hnone : ∀ r ∈ db.releases, r.service_id = rel.service_id →
      r.id ≠ rel.id → r.status ≠ "completed") :
    execute_rollback db did uid reason now =
      Except.error "No previous stable release found for rollback" ∧
    execute_rollback_apply db did uid reason now = db := by
  have hfil : db.releases.filter (fun r =>
      r.service_id == rel.service_id && r.id != rel.id &&
        r.status == "completed") = [] := by
    rw [List.filter_eq_nil_iff]
    intro r hr hcond
    simp only [Bool.and_eq_true, beq_iff_eq, bne_iff_ne] at hcond
    exact hnone r hr hcond.1.1 hcond.1.2 hcond.2
  have herr : execute_rollback db did uid reason now =
      Except.error "No previous stable release found for rollback" := by
    unfold execute_rollback
    rw [hdep]
    dsimp only
    rw [hrel]
    dsimp only
    rw [hfil]
    rfl
  refine ⟨herr, ?_⟩
  simp only [execute_rollback_apply, herr]

/-- Witness for C4 at a concrete database whose service has no `completed`
    release besides (possibly) the deployment's own. -/
theorem c4_rollback_without_completed_sibling_fails_witness :
    execute_rollback c4_db 10 5 "oops" 1000 =
      Except.error "No previous stable release found for rollback" ∧
    execute_rollback_apply c4_db 10 5 "oops" 1000 = c4_db :=
  c4_rollback_without_completed_sibling_fails c4_db 10 5 "oops" 1000 c4_dep
    c4_rel (by rfl) (by rfl) (by decide)

theorem length_filter_not (l : List Deployment) (p : Deployment → Bool) :
    (l.filter (fun a => !(p a))).length = l.length - l.countP p := by
  induction l with
  | nil => rfl
  | cons a l ih =>
    have hle := List.countP_le_length (p := p) (l := l)
    cases h : p a <;>
      simp [List.countP_cons, List.filter_cons, h] <;>
      omega

/-- C5: `successful_deployments` equals the number of windowed deployments
    whose status is anything other than `failed` (so pending / in-progress /
    rolled-back deployments count as successful), and `change_failure_rate`
    is failed/total × 100 when the window is non-empty and 0 otherwise. -/
theorem c5_successful_and_change_failure_rate (db : DB) (now : Int)
    (days : Nat) :
    (calculate_metrics_summary db now days).successful_deployments =
      ((window_deployments db now days).filter
        (fun d => !(d.status == "failed"))).length ∧
    (calculate_metrics_summary db now days).change_failure_rate =
      (if 0 < (window_deployments db now days).length then
        (((window_deployments db now days).countP
            (fun d => d.status == "failed") : ℚ)) /
          (((window_deployments db now days).length : Nat) : ℚ) * 100
       else 0) := by
  constructor
  · exact (length_filter_not (window_deployments db now days)
      (fun d => d.status == "failed")).symm
  · rfl

/-- Witness for C5: 10 deployments in the window, 3 of them `failed` (some of
    the rest merely `pending`/`in_progress`) give successful = 7 and
    change_failure_rate = 30. -/
theorem c5_successful_and_change_failure_rate_witness :
    (calculate_metrics_summary c5_db 1000 30).successful_deployments = 7 ∧
    (calculate_metrics_summary c5_db 1000 30).change_failure_rate = 30 :=
  ⟨((c5_successful_and_change_failure_rate c5_db 1000 30).1).trans (by decide),
   ((c5_successful_and_change_failure_rate c5_db 1000 30).2).trans (by
      have hw : window_deployments c5_db 1000 30 = c5_db.deployments := by
        decide
      have hc : c5_db.deployments.countP (fun d => d.status == "failed") = 3 :=
        by decide
      have hl : c5_db.deployments.length = 10 := by decide
      rw [hw, hc, hl]
      norm_num)⟩

theorem recovery_total_time_eq (l : List Deployment) :
    recovery_total_time l = qual_total l := by
  suffices h : ∀ a : Int, l.foldl (fun acc d =>
      match d.deployed_at, d.completed_at with
      | some dep, some comp => acc + (comp - dep)
      | _, _ => acc) a = a + qual_total l by
    have h0 := h 0
    simpa [recovery_total_time] using h0
  induction l with
  | nil => intro a; simp [qual_total, qualifying]
  | cons d l ih =>
    intro a
    cases hd : d.deployed_at with
    | none => simp [qual_total, qualifying, List.filter_cons, hd, ih]
    | some x =>
      cases hc : d.completed_at with
      | none => simp [qual_total, qualifying, List.filter_cons, hd, hc, ih]
      | some y =>
        simp [qual_total, qualifying, List.filter_cons, hd, hc, ih]
        ring

/-- C2 counterexample: with two deployments in the window, one having a
    2-minute duration and one missing both timestamps, the code reports
    mean_time_to_recovery = 1 (denominator 2 = all deployments) while the
    claim's average over qualifying deployments would be 2. -/
theorem c2_counterexample_mttr_denominator :
    (calculate_metrics_summary c2_db 1000 1).mean_time_to_recovery = 1 ∧
    mttr_claimed c2_db 1000 1 = 2 ∧
    (calculate_metrics_summary c2_db 1000 1).mean_time_to_recovery ≠
      mttr_claimed c2_db 1000 1 := by
  have hw : window_deployments c2_db 1000 1 = c2_db.deployments := by decide
  have h1 : (calculate_metrics_summary c2_db 1000 1).mean_time_to_recovery =
      1 := by
    show (if (window_deployments c2_db 1000 1).isEmpty then (0 : ℚ)
      else ((recovery_total_time (window_deployments c2_db 1000 1) : ℚ) /
        (((window_deployments c2_db 1000 1).length : Nat) : ℚ)) / 60) = 1
    rw [hw]
    have hr : recovery_total_time c2_db.deployments = 120 := by decide
    have hl : c2_db.deployments.length = 2 := by decide
    have he : c2_db.deployments.isEmpty = false := by decide
    rw [hr, hl, he]
    norm_num
  have h2 : mttr_claimed c2_db 1000 1 = 2 := by
    unfold mttr_claimed
    rw [hw]
    have hql : (qualifying c2_db.deployments).length = 1 := by decide
    have hqt : qual_total c2_db.deployments = 120 := by decide
    rw [hql, hqt]
    norm_num
  refine ⟨h1, h2, ?_⟩
  rw [h1, h2]
  norm_num

/-- C2 amended: only deployments with both timestamps contribute to the
    numerator of `mean_time_to_recovery`, but the denominator is the count of
    ALL deployments in the window; the value is 0 when the window is empty,
    and also 0 whenever no deployment in the window has both timestamps. -/
theorem c2_amended_mttr_total_denominator (db : DB) (now : Int) (days : Nat) :
    (calculate_metrics_summary db now days).mean_time_to_recovery =
      (if (window_deployments db now days).isEmpty then 0
       else (qual_total (window_deployments db now days) : ℚ) /
         (((window_deployments db now days).length : Nat) : ℚ) / 60) ∧
    ((∀ d ∈ window_deployments db now days,
        d.deployed_at = none ∨ d.completed_at = none) →
      (calculate_metrics_summary db now days).mean_time_to_recovery = 0) := by
  have hrw : (calculate_metrics_summary db now days).mean_time_to_recovery =
      (if (window_deployments db now days).isEmpty then 0
       else ((recovery_total_time (window_deployments db now days) : ℚ) /
         (((window_deployments db now days).length : Nat) : ℚ)) / 60) := rfl
  constructor
  · rw [hrw, recovery_total_time_eq]
  · intro hnone
    have hq : qualifying (window_deployments db now days) = [] := by
      unfold qualifying
      rw [List.filter_eq_nil_iff]
      intro d hd hcond
      rcases hnone d hd with h | h <;> simp [h] at hcond
    have hz : recovery_total_time (window_deployments db now days) = 0 := by
      rw [recovery_total_time_eq]
      simp [qual_total, hq]
    rw [hrw, hz]
    split_ifs <;> simp

/-- Witness for the amended C2: a non-empty window in which no deployment has
    both timestamps yields mean_time_to_recovery = 0. -/
theorem c2_amended_mttr_total_denominator_witness :
    (calculate_metrics_summary c2w_db 1000 1).mean_time_to_recovery = 0 :=
  (c2_amended_mttr_total_denominator c2w_db 1000 1).2 (by decide)

/-- C8 counterexample: the service-layer `create_deployment` performs no
    existence check — on an empty database, where release id 1 resolves to
    nothing, it still creates a deployment row instead of failing NotFound. -/
theorem c8_counterexample_no_existence_check :
    c8_db.releases.find? (fun r => r.id == 1) = none ∧
    (create_deployment c8_db 1 2 3 0).snd.deployments.length = 1 ∧
    (create_deployment c8_db 1 2 3 0).fst.status = "pending" := by decide

theorem create_deployment_route_ok (db : DB)
    (release_id environment_id user_id : Nat) (now : Int)
    (r : Release) (e : Environment)
    (hfind : db.releases.find? (fun x => x.id == release_id) = some r)
    (henv : db.environments.find? (fun x => x.id == environment_id) = some e) :
    create_deployment_route db release_id environment_id user_id now =
      Except.ok
        ({ id := db.next_id, release_id := release_id,
           environment_id := environment_id, status := "pending",
           deployed_by := user_id, deployed_at := none, completed_at := none,
           created_at := now },
         { db with
             deployments := db.deployments ++
               [{ id := db.next_id, release_id := release_id,
                  environment_id := environment_id, status := "pending",
                  deployed_by := user_id, deployed_at := none,
                  completed_at := none, created_at := now }],
             next_id := db.next_id + 1 }) := by
  unfold create_deployment_route
  simp only [hfind, henv, Option.isNone_some, Bool.false_eq_true, if_false]

/-- C8 amended: the service-layer `create_deployment` always creates a row in
    status `pending` with `deployed_at` stamped at creation time plus a
    `create_deployment` audit entry, performing no existence check on either
    id; the NotFound rejection lives in the POST /api/deployments route
    handler, which creates no row on failure and whose created row has status
    `pending` but no `deployed_at`. -/
theorem c8_amended_create_deployment (db : DB)
    (release_id environment_id user_id : Nat) (now : Int) :
    ((create_deployment db release_id environment_id user_id now).fst.status =
        "pending" ∧
     (create_deployment db release_id environment_id user_id now).fst.deployed_at =
        some now ∧
     (create_deployment db release_id environment_id user_id now).snd.deployments =
        db.deployments ++
          [(create_deployment db release_id environment_id user_id now).fst] ∧
     ∃ log ∈ (create_deployment db release_id environment_id user_id
          now).snd.audit_logs,
       log.action = "create_deployment" ∧ log.resource_type = "deployment" ∧
       log.resource_id =
         (create_deployment db release_id environment_id user_id now).fst.id) ∧
    ((db.releases.find? (fun x => x.id == release_id)).isNone = true →
      create_deployment_route db release_id environment_id user_id now =
        Except.error "Release not found") ∧
    ((db.releases.find? (fun x => x.id == release_id)).isSome = true →
      (db.environments.find? (fun x => x.id == environment_id)).isNone = true →
      create_deployment_route db release_id environment_id user_id now =
        Except.error "Environment not found") ∧
    ((db.releases.find? (fun x => x.id == release_id)).isSome = true →
      (db.environments.find? (fun x => x.id == environment_id)).isSome = true →
      ∃ dep db',
        create_deployment_route db release_id environment_id user_id now =
          Except.ok (dep, db') ∧
        dep.status = "pending" ∧ dep.deployed_at = none ∧
        db'.deployments = db.deployments ++ [dep]) := by
  refine ⟨⟨rfl, rfl, rfl, ?_⟩, ?_, ?_, ?_⟩
  · exact ⟨_, List.mem_append_right _ (List.mem_singleton_self _), rfl, rfl, rfl⟩
  · intro h1
    unfold create_deployment_route
    simp only [h1, if_true]
  · intro h1 h2
    cases hfind : db.releases.find? (fun x => x.id == release_id) with
    | none =>
      rw [hfind] at h1
      exact absurd h1 (by decide)
    | some r =>
      unfold create_deployment_route
      simp only [hfind, h2, Option.isNone_some, Bool.false_eq_true, if_false,
        if_true]
  · intro h1 h2
    cases hfind : db.releases.find? (fun x => x.id == release_id) with
    | none =>
      rw [hfind] at h1
      exact absurd h1 (by decide)
    | some r =>
      cases henv : db.environments.find? (fun x => x.id == environment_id) with
      | none =>
        rw [henv] at h2
        exact absurd h2 (by decide)
      | some e =>
        exact ⟨_, _, create_deployment_route_ok db release_id environment_id
          user_id now r e hfind henv, rfl, rfl, rfl⟩

/-- Witness for the amended C8: the route 404s on a missing release and
    creates nothing, the service stamps `deployed_at`, and the route's
    successful row carries status `pending` with `deployed_at` unset. -/
theorem c8_amended_create_deployment_witness :
    create_deployment_route c8_db 1 2 3 0 = Except.error "Release not found" ∧
    (create_deployment c8_db 1 2 3 0).fst.deployed_at = some 0 ∧
    (∃ dep db',
      create_deployment_route c8w_db 1 2 3 0 = Except.ok (dep, db') ∧
      dep.status = "pending" ∧ dep.deployed_at = none ∧
      db'.deployments = c8w_db.deployments ++ [dep]) :=
  ⟨(c8_amended_create_deployment c8_db 1 2 3 0).2.1 (by decide),
   (c8_amended_create_deployment c8_db 1 2 3 0).1.2.1,
   (c8_amended_create_deployment c8w_db 1 2 3 0).2.2.2 (by decide) (by decide)⟩

/-- C9: the audit round-trip is blocked by the code itself: the store rejects
    the count statement `get_audit_logs` executes first, so the call errors
    before returning any rows. Evaluated at the failing input: a
    `create_deployment` row just written by `log_action` sits in the store and
    matches the exact (resource_type, resource_id) filter pair with its
    action, user id and metadata verbatim, yet `get_audit_logs` on that pair
    returns the store's error instead of the row. -/
theorem c9_audit_round_trip_blocked_by_count_query :
    (∃ r ∈ (log_action c9_db (some 4) "create_deployment" "deployment" 9
        (some [("release_id", "1")]) none none 77).snd.audit_logs,
      matches_filters
        { resource_type := some "deployment", resource_id := some 9 } r =
          true ∧
      r.action = "create_deployment" ∧ r.user_id = some 4 ∧
      r.details = some [("release_id", "1")]) ∧
    get_audit_logs
      (log_action c9_db (some 4) "create_deployment" "deployment" 9
        (some [("release_id", "1")]) none none 77).snd
      { resource_type := some "deployment", resource_id := some 9 } 100 0 =
      Except.error "subquery must return only one column" := by
  constructor
  · decide
  · rfl

end ReleaseManager
